import Mathlib

/-!
Verification of the deshell-mcp stdio JSON-RPC server (src/index.js).

The embedding models, directly from the source:
  - the JSON value shape used for results (`Json`),
  - the tool registry `TOOLS`,
  - the tool invoker `callToolReq` (up to the point an HTTP request is
    issued: it returns either the thrown error message or the `get`
    request, i.e. URL plus headers, the call performs),
  - the JSON-RPC dispatcher `dispatch` (parameterised over the awaited
    outcome of `callTool`, which depends on the network),
  - the per-line stdin framing (`processLine`, `processFrames`,
    `processChunk`),
  - the redirect-following HTTP client `get` as the resolution relation
    `Resolves` (the source recursion has no depth bound, so it is embedded
    as an inductive relation mirroring the recursive calls).
-/

namespace DeshellMCP

/-- JSON values, as produced by the server for results. -/
inductive Json where
  | null
  | bool (b : Bool)
  | num (n : Int)
  | str (s : String)
  | arr (elems : List Json)
  | obj (fields : List (String × Json))
deriving Repr

/-- A JSON-RPC id is a string or a number; `none` at the use sites below
models both JSON `null` and an absent field (both satisfy `id == null`
under the loose comparison the source uses). -/
inductive JsonId where
  | str (s : String)
  | num (n : Int)
deriving Repr, DecidableEq

/-- The `params` object of a `tools/call` message: `params.name` and
`params.arguments`. Argument values are strings, per the tools' input
schemas. -/
structure ToolCallParams where
  name : String
  arguments : Option (List (String × String))
deriving Repr, DecidableEq

/-- A decoded JSON-RPC message as destructured by `dispatch`:
`const { id, method, params } = msg`. -/
structure Msg where
  id : Option JsonId
  method : String
  params : Option ToolCallParams
deriving Repr, DecidableEq

/-- One line written to stdout: `ok(id, result)` or `fail(id, code, message)`. -/
inductive Response where
  | ok (id : Option JsonId) (result : Json)
  | fail (id : Option JsonId) (code : Int) (message : String)
deriving Repr

/-- Process-wide configuration: `API_KEY`, `PROXY_BASE` (trailing slash
already stripped), and `VERSION` from package.json (not part of src/). -/
structure Config where
  apiKey : String
  proxyBase : String
  version : String
deriving Repr, DecidableEq

/-- An outbound HTTP GET request: the URL and headers handed to `get`. -/
structure Request where
  url : String
  headers : List (String × String)
deriving Repr, DecidableEq

/-- One property entry of a tool's `inputSchema.properties`. -/
structure PropSchema where
  type : String
  description : String
deriving Repr, DecidableEq

/-- A tool's `inputSchema`. -/
structure InputSchema where
  type : String
  properties : List (String × PropSchema)
  required : List String
deriving Repr, DecidableEq

/-- One entry of the `TOOLS` array. -/
structure ToolDescriptor where
  name : String
  description : String
  inputSchema : InputSchema
deriving Repr, DecidableEq

/-- The static tool registry `TOOLS` of src/index.js. -/
def TOOLS : List ToolDescriptor :=
  [ { name := "deshell_scrape",
      description := "Fetch a URL and return its content as clean Markdown. Handles JavaScript-rendered pages, PDFs, and automatic content extraction.",
      inputSchema :=
        { type := "object",
          properties := [("url", { type := "string", description := "The URL to fetch and convert to Markdown" })],
          required := ["url"] } },
    { name := "deshell_search",
      description := "Search the web and return results as Markdown. Includes titles, URLs, and snippet text for the top results.",
      inputSchema :=
        { type := "object",
          properties := [("query", { type := "string", description := "The search query" })],
          required := ["query"] } },
    { name := "deshell_screenshot",
      description := "Take a screenshot of a web page and return it as an image.",
      inputSchema :=
        { type := "object",
          properties := [("url", { type := "string", description := "The URL of the web page to screenshot" })],
          required := ["url"] } },
    { name := "deshell_render",
      description := "Render a web page (such as a single page javascript app) before trying to extract markdown.",
      inputSchema :=
        { type := "object",
          properties := [("url", { type := "string", description := "The URL of the javascript web page to render" })],
          required := ["url"] } },
    { name := "deshell_raw",
      description := "Fetch a URL and return its raw content bypassing any attempt to render markdown.",
      inputSchema :=
        { type := "object",
          properties := [("url", { type := "string", description := "The URL to fetch" })],
          required := ["url"] } },
    { name := "deshell_nocache",
      description := "Fetch a URL and return its content without using the cache.",
      inputSchema :=
        { type := "object",
          properties := [("url", { type := "string", description := "The URL to fetch uncached" })],
          required := ["url"] } } ]

/-- Property lookup on an arguments object (`args.url`, `args.query`):
the value of the first binding of `key`, or `none` when absent. -/
def getArg (args : List (String × String)) (key : String) : Option String :=
  (args.find? (fun kv => kv.1 = key)).map (fun kv => kv.2)

/-- JS truthiness test `!v` for a possibly-absent string property:
an absent property (`undefined`) and the empty string are falsy. -/
def strFalsy : Option String → Bool
  | none => true
  | some s => s = ""

/-- UTF-8 byte sequence of a character, as a list of byte values. -/
def utf8Bytes (c : Char) : List Nat :=
  let n := c.toNat
  if n < 128 then [n]
  else if n < 2048 then [192 + n / 64, 128 + n % 64]
  else if n < 65536 then [224 + n / 4096, 128 + n / 64 % 64, 128 + n % 64]
  else [240 + n / 262144, 128 + n / 4096 % 64, 128 + n / 64 % 64, 128 + n % 64]

/-- Uppercase hexadecimal digit for a value below 16. -/
def hexDigitChar (n : Nat) : Char :=
  if n < 10 then Char.ofNat (48 + n) else Char.ofNat (55 + n)

/-- Percent-encoding of one byte, e.g. 32 becomes "%20". -/
def percentEncodeByte (b : Nat) : String :=
  String.mk ['%', hexDigitChar (b / 16 % 16), hexDigitChar (b % 16)]

/-- Characters the ECMAScript `encodeURIComponent` leaves unescaped:
ASCII letters, digits, and - _ . ! ~ * ( ) and the apostrophe (39). -/
def isURIUnescaped (c : Char) : Bool :=
  c.isAlpha || c.isDigit ||
    ['-', '_', '.', '!', '~', '*', Char.ofNat 39, '(', ')'].contains c

/-- The ECMAScript builtin `encodeURIComponent`: every character outside
the unescaped set is UTF-8 encoded and each byte percent-escaped. -/
def encodeURIComponent (s : String) : String :=
  String.join (s.data.map (fun c =>
    if isURIUnescaped c then String.singleton c
    else String.join ((utf8Bytes c).map percentEncodeByte)))

/-- Embedding of `callTool` up to the point an HTTP request is issued:
the result is either the message of the error `callTool` throws, or the
`get` request (URL and headers) that the tool call performs. -/
def callToolReq (cfg : Config) (name : String) (args : List (String × String)) :
    Except String Request :=
  if cfg.apiKey = "" then .error "DESHELL_API_KEY environment variable is required"
  else
    let headers : List (String × String) := [("X-DeShell-Key", cfg.apiKey)]
    if name = "deshell_scrape" then
      if strFalsy (getArg args "url") then .error "url is required"
      else .ok ⟨cfg.proxyBase ++ "/" ++ (getArg args "url").getD "", headers⟩
    else if name = "deshell_search" then
      if strFalsy (getArg args "query") then .error "query is required"
      else .ok ⟨cfg.proxyBase ++ "/search?q=" ++ encodeURIComponent ((getArg args "query").getD ""),
                headers ++ [("Accept", "text/markdown")]⟩
    else if name = "deshell_screenshot" then
      if strFalsy (getArg args "url") then .error "url is required"
      else .ok ⟨cfg.proxyBase ++ "/screenshot/" ++ (getArg args "url").getD "", headers⟩
    else if name = "deshell_render" then
      if strFalsy (getArg args "url") then .error "url is required"
      else .ok ⟨cfg.proxyBase ++ "/render/" ++ (getArg args "url").getD "", headers⟩
    else if name = "deshell_raw" then
      if strFalsy (getArg args "url") then .error "url is required"
      else .ok ⟨cfg.proxyBase ++ "/raw/" ++ (getArg args "url").getD "", headers⟩
    else if name = "deshell_nocache" then
      if strFalsy (getArg args "url") then .error "url is required"
      else .ok ⟨cfg.proxyBase ++ "/nocache/" ++ (getArg args "url").getD "", headers⟩
    else .error ("Unknown tool: " ++ name)

/-- Outcome of `await callTool(params.name, params.arguments || {})` under
an abstract executor `exec` (the awaited `callTool`, whose result depends
on the network): `Except.error` is a thrown error, `Except.ok` the resolved
text. When `params` is absent, `params.name` throws a TypeError, caught by
the dispatcher's catch block. -/
def toolOutcome (exec : String → List (String × String) → Except String String)
    (params : Option ToolCallParams) : Except String String :=
  match params with
  | none => .error "Cannot read properties of undefined (reading \x27name\x27)"
  | some p => exec p.name (p.arguments.getD [])

/-- The `initialize` handler's result object. -/
def initResult (version : String) : Json :=
  .obj [("protocolVersion", .str "2024-11-05"),
        ("capabilities", .obj [("tools", .obj [])]),
        ("serverInfo", .obj [("name", .str "@deshell/mcp"), ("version", .str version)])]

/-- JSON encoding of one schema property. -/
def propJson (p : PropSchema) : Json :=
  .obj [("type", .str p.type), ("description", .str p.description)]

/-- JSON encoding of an input schema. -/
def schemaJson (s : InputSchema) : Json :=
  .obj [("type", .str s.type),
        ("properties", .obj (s.properties.map (fun kv => (kv.1, propJson kv.2)))),
        ("required", .arr (s.required.map Json.str))]

/-- JSON encoding of a tool descriptor. -/
def toolJson (t : ToolDescriptor) : Json :=
  .obj [("name", .str t.name), ("description", .str t.description),
        ("inputSchema", schemaJson t.inputSchema)]

/-- The `tools/list` handler's result object. -/
def toolsListResult : Json :=
  .obj [("tools", .arr (TOOLS.map toolJson))]

/-- The `tools/call` handler's success result object. -/
def toolCallResult (text : String) : Json :=
  .obj [("content", .arr [.obj [("type", .str "text"), ("text", .str text)]])]

/-- Embedding of `dispatch`: the list of responses written to stdout for
one decoded message, in order. The switch over `method` becomes a
comparison chain; the catch block only ever sees errors thrown out of the
`tools/call` handler (no other handler throws), and suppresses the error
response when `id == null`, as does the default arm. -/
def dispatch (version : String)
    (exec : String → List (String × String) → Except String String)
    (m : Msg) : List Response :=
  if m.method = "initialize" then [.ok m.id (initResult version)]
  else if m.method = "initialized" ∨ m.method = "notifications/initialized" then []
  else if m.method = "ping" then [.ok m.id (.obj [])]
  else if m.method = "tools/list" then [.ok m.id toolsListResult]
  else if m.method = "tools/call" then
    match toolOutcome exec m.params with
    | .ok text => [.ok m.id (toolCallResult text)]
    | .error e => if m.id.isSome then [.fail m.id (-32603) e] else []
  else if m.id.isSome then [.fail m.id (-32601) ("Method not found: " ++ m.method)] else []

/-- The awaited `callTool` when each issued HTTP request is resolved or
rejected by the network `net`. -/
def execTool (cfg : Config) (net : Request → Except String String)
    (name : String) (args : List (String × String)) : Except String String :=
  (callToolReq cfg name args).bind net

/-- The ECMAScript builtin `String.prototype.trim`: whitespace removed
from both ends of the string. -/
def jsTrim (s : String) : String :=
  String.mk ((s.data.dropWhile Char.isWhitespace).reverse.dropWhile Char.isWhitespace).reverse

/-- Processing of one extracted frame by the stdin data handler: blank
and whitespace-only lines are skipped; a line `JSON.parse` rejects
(modelled by `parse` returning `none`) yields the `-32700` error response
with a null id; otherwise the decoded message is dispatched. -/
def processLine (version : String)
    (exec : String → List (String × String) → Except String String)
    (parse : String → Option Msg) (line : String) : List Response :=
  if jsTrim line = "" then []
  else
    match parse line with
    | some m => dispatch version exec m
    | none => [.fail none (-32700) "Parse error"]

/-- The stdin loop over a sequence of complete frames. -/
def processFrames (version : String)
    (exec : String → List (String × String) → Except String String)
    (parse : String → Option Msg) (lines : List String) : List Response :=
  lines.flatMap (processLine version exec parse)

/-- One stdin data event: the buffer plus the chunk is split on newlines,
the final segment is retained as the new buffer, and every earlier
segment is processed as a frame. -/
def processChunk (version : String)
    (exec : String → List (String × String) → Except String String)
    (parse : String → Option Msg) (buf chunk : String) : String × List Response :=
  let parts := (buf ++ chunk).splitOn "\n"
  (parts.getLastD "", processFrames version exec parse parts.dropLast)

/-- An HTTP response as seen by the `get` client: status code, Location
header, and accumulated body text. -/
structure HttpResp where
  status : Nat
  location : String
  body : String
deriving Repr, DecidableEq

/-- Resolution relation of the recursive `get` client against a network
`net` mapping each request to its response: on a 301 or 302 status the
same GET is re-issued to the Location value with the same headers (with
no bound on the recursion depth); on any other status the accumulated
body resolves the call. -/
inductive Resolves (net : Request → HttpResp) : Request → String → Prop where
  | done : ∀ r : Request, ¬((net r).status = 301 ∨ (net r).status = 302) →
      Resolves net r (net r).body
  | redirect : ∀ (r : Request) (b : String),
      ((net r).status = 301 ∨ (net r).status = 302) →
      Resolves net ⟨(net r).location, r.headers⟩ b →
      Resolves net r b

/-- A network realising a redirect chain of length `n`: every URL shorter
than `n` characters redirects (301) to itself extended by one character;
at length `n` it answers 200 with body "end". -/
def chainNet (n : Nat) : Request → HttpResp :=
  fun r => if r.url.length < n then ⟨301, r.url.push 'a', ""⟩ else ⟨200, "", "end"⟩

/-! ## Claim theorems -/

/-- C1 (counterexample): the claim fails on the code in both directions.
A message with method "initialized" and the non-null id 1 receives zero
responses, not one; and a message with method "ping" and a null id
receives one response, not zero. -/
theorem c1_counterexample :
    (dispatch "1.0.0" (fun _ _ => Except.ok "")
        ⟨some (JsonId.num 1), "initialized", none⟩).length = 0
  ∧ (dispatch "1.0.0" (fun _ _ => Except.ok "")
        ⟨none, "ping", none⟩).length = 1 := by
  constructor <;> rfl

/-- C1 (amended): exact response count of the dispatcher for every decoded
message. Messages with method "initialized" or "notifications/initialized"
get zero responses even when the id is non-null; messages with method
"initialize", "ping" or "tools/list" get exactly one response even when
the id is null; a "tools/call" gets one response unless the call fails and
the id is null; for any other method, one error response exactly when the
id is non-null. -/
theorem c1_response_count (version : String)
    (exec : String → List (String × String) → Except String String) (m : Msg) :
    (dispatch version exec m).length =
      if m.method = "initialized" ∨ m.method = "notifications/initialized" then 0
      else if m.method = "initialize" ∨ m.method = "ping" ∨ m.method = "tools/list" then 1
      else if m.method = "tools/call" then
        (if (toolOutcome exec m.params).isOk ∨ m.id.isSome then 1 else 0)
      else if m.id.isSome then 1 else 0 := by
  rcases m with ⟨id, method, params⟩
  by_cases h1 : method = "initialize"
  · subst h1; simp [dispatch]
  · by_cases h2 : method = "initialized" ∨ method = "notifications/initialized"
    · rcases h2 with rfl | rfl <;> simp [dispatch]
    · by_cases h3 : method = "ping"
      · subst h3; simp [dispatch]
      · by_cases h4 : method = "tools/list"
        · subst h4; simp [dispatch]
        · by_cases h5 : method = "tools/call"
          · subst h5
            simp only [dispatch]
            norm_num
            cases hout : toolOutcome exec params with
            | ok text => simp [hout, Except.isOk, Except.toBool]
            | error e => cases id <;> simp [hout, Except.isOk, Except.toBool]
          · simp only [dispatch, if_neg h1, if_neg h2, if_neg h3, if_neg h4, if_neg h5]
            cases id <;> simp [h1, h3, h4]

/-- C2: with no API key configured, every tool call, whatever the name and
arguments, fails with the configuration error naming DESHELL_API_KEY, and
no other error and no HTTP request is possible: the invoker's result is
exactly that error. -/
theorem c2_missing_api_key (cfg : Config) (h : cfg.apiKey = "")
    (name : String) (args : List (String × String)) :
    callToolReq cfg name args =
      .error "DESHELL_API_KEY environment variable is required" := by
  unfold callToolReq
  rw [if_pos h]

/-- C2 witness: concrete instance with an unset key, an unknown tool name
and arguments missing every required field. -/
theorem c2_missing_api_key_witness :
    callToolReq ⟨"", "https://proxy.deshell.ai", "1.0.0"⟩ "deshell_scrape" [] =
      .error "DESHELL_API_KEY environment variable is required" :=
  c2_missing_api_key ⟨"", "https://proxy.deshell.ai", "1.0.0"⟩ rfl "deshell_scrape" []

/-- C8: for a message whose method matches no handler, a non-null id gets
exactly one error response with code -32601 whose message contains the
unknown method name, and a null id produces no output. -/
theorem c8_unknown_method (version : String)
    (exec : String → List (String × String) → Except String String) (m : Msg)
    (hm : m.method ∉ (["initialize", "initialized", "notifications/initialized",
                       "ping", "tools/list", "tools/call"] : List String)) :
    (∀ i : JsonId, m.id = some i →
        dispatch version exec m =
          [Response.fail (some i) (-32601) ("Method not found: " ++ m.method)]
        ∧ ∃ p s : String, "Method not found: " ++ m.method = p ++ m.method ++ s)
  ∧ (m.id = none → dispatch version exec m = []) := by
  simp only [List.mem_cons, List.not_mem_nil, or_false, not_or] at hm
  obtain ⟨h1, h2, h3, h4, h5, h6⟩ := hm
  constructor
  · intro i hi
    refine ⟨?_, ⟨"Method not found: ", "", ?_⟩⟩
    · simp [dispatch, h1, h2, h3, h4, h5, h6, hi]
    · rw [String.append_empty]
  · intro hi
    simp [dispatch, h1, h2, h3, h4, h5, h6, hi]

/-- C8 witness: the message with method "notamethod" and id 42 yields the
single -32601 response naming the method. -/
theorem c8_unknown_method_witness :
    dispatch "1.0.0" (fun _ _ => Except.ok "")
        ⟨some (JsonId.num 42), "notamethod", none⟩ =
      [Response.fail (some (JsonId.num 42)) (-32601)
        ("Method not found: " ++ "notamethod")]
    ∧ ∃ p s : String,
        "Method not found: " ++ "notamethod" = p ++ "notamethod" ++ s :=
  (c8_unknown_method "1.0.0" (fun _ _ => Except.ok "")
      ⟨some (JsonId.num 42), "notamethod", none⟩ (by decide)).1
    (JsonId.num 42) rfl

/-- C9: every initialize message is answered with a result holding exactly
the protocol version string "2024-11-05", a capabilities object containing
a tools object, and a serverInfo with the non-empty name "@deshell/mcp"
and the package version. -/
theorem c9_handshake (version : String)
    (exec : String → List (String × String) → Except String String)
    (id : Option JsonId) (params : Option ToolCallParams) :
    dispatch version exec ⟨id, "initialize", params⟩ =
      [Response.ok id (Json.obj
        [("protocolVersion", Json.str "2024-11-05"),
         ("capabilities", Json.obj [("tools", Json.obj [])]),
         ("serverInfo", Json.obj
            [("name", Json.str "@deshell/mcp"), ("version", Json.str version)])])]
    ∧ "@deshell/mcp" ≠ "" := by
  exact ⟨by simp [dispatch, initResult], by decide⟩

/-- C3: a non-blank frame that fails to parse contributes exactly one
error response with null id and code -32700, every later well-formed
frame in the stream is still processed and receives exactly the responses
it would receive on its own, and blank or whitespace-only frames are
dropped with no output. -/
theorem c3_parse_error_isolated (version : String)
    (exec : String → List (String × String) → Except String String)
    (parse : String → Option Msg) (pre post : List String) (bad : String)
    (hnb : jsTrim bad ≠ "") (hp : parse bad = none) :
    processFrames version exec parse (pre ++ bad :: post) =
      processFrames version exec parse pre
        ++ (Response.fail none (-32700) "Parse error")
          :: processFrames version exec parse post
  ∧ ∀ line : String, jsTrim line = "" → processLine version exec parse line = [] := by
  constructor
  · unfold processFrames
    rw [List.flatMap_append, List.flatMap_cons]
    have hbad : processLine version exec parse bad =
        [Response.fail none (-32700) "Parse error"] := by
      simp [processLine, hnb, hp]
    rw [hbad]
    simp
  · intro line h
    simp [processLine, h]

/-- C3 witness: a whitespace frame, then a malformed frame, then a frame
that parses to a ping request, against a parse function rejecting the
malformed line. -/
theorem c3_parse_error_isolated_witness :
    processFrames "1.0.0" (fun _ _ => Except.ok "")
        (fun s => if s = "ping-frame" then some ⟨some (JsonId.num 7), "ping", none⟩ else none)
        ([" "] ++ "oops" :: ["ping-frame"]) =
      processFrames "1.0.0" (fun _ _ => Except.ok "")
          (fun s => if s = "ping-frame" then some ⟨some (JsonId.num 7), "ping", none⟩ else none)
          [" "]
        ++ (Response.fail none (-32700) "Parse error")
          :: processFrames "1.0.0" (fun _ _ => Except.ok "")
              (fun s => if s = "ping-frame" then some ⟨some (JsonId.num 7), "ping", none⟩ else none)
              ["ping-frame"]
  ∧ ∀ line : String, jsTrim line = "" →
      processLine "1.0.0" (fun _ _ => Except.ok "")
        (fun s => if s = "ping-frame" then some ⟨some (JsonId.num 7), "ping", none⟩ else none)
        line = [] :=
  c3_parse_error_isolated "1.0.0" (fun _ _ => Except.ok "")
    (fun s => if s = "ping-frame" then some ⟨some (JsonId.num 7), "ping", none⟩ else none)
    [" "] ["ping-frame"] "oops" (by decide) (by decide)

/-- C4: with a configured credential, the invoker rejects a name with the
unknown-tool error exactly when the name is outside the registry: every
listed tool name is never answered with the unknown-tool error (whatever
the arguments), and every unlisted name always is. -/
theorem c4_registry_matches_invoker (cfg : Config) (h : cfg.apiKey ≠ "")
    (name : String) (args : List (String × String)) :
    callToolReq cfg name args = .error ("Unknown tool: " ++ name) ↔
      name ∉ TOOLS.map ToolDescriptor.name := by
  unfold callToolReq
  rw [if_neg h]
  by_cases h1 : name = "deshell_scrape"
  · subst h1
    rw [if_pos rfl]
    constructor
    · cases hb : strFalsy (getArg args "url") with
      | true =>
          rw [if_pos rfl]
          intro he
          exact absurd (Except.error.inj he) (by decide)
      | false =>
          rw [if_neg (by simp)]
          intro he
          exact Except.noConfusion he
    · intro hn
      exact absurd (show "deshell_scrape" ∈ TOOLS.map ToolDescriptor.name by simp [TOOLS]) hn
  · rw [if_neg h1]
    by_cases h2 : name = "deshell_search"
    · subst h2
      rw [if_pos rfl]
      constructor
      · cases hb : strFalsy (getArg args "query") with
        | true =>
            rw [if_pos rfl]
            intro he
            exact absurd (Except.error.inj he) (by decide)
        | false =>
            rw [if_neg (by simp)]
            intro he
            exact Except.noConfusion he
      · intro hn
        exact absurd (show "deshell_search" ∈ TOOLS.map ToolDescriptor.name by simp [TOOLS]) hn
    · rw [if_neg h2]
      by_cases h3 : name = "deshell_screenshot"
      · subst h3
        rw [if_pos rfl]
        constructor
        · cases hb : strFalsy (getArg args "url") with
          | true =>
              rw [if_pos rfl]
              intro he
              exact absurd (Except.error.inj he) (by decide)
          | false =>
              rw [if_neg (by simp)]
              intro he
              exact Except.noConfusion he
        · intro hn
          exact absurd (show "deshell_screenshot" ∈ TOOLS.map ToolDescriptor.name by simp [TOOLS]) hn
      · rw [if_neg h3]
        by_cases h4 : name = "deshell_render"
        · subst h4
          rw [if_pos rfl]
          constructor
          · cases hb : strFalsy (getArg args "url") with
            | true =>
                rw [if_pos rfl]
                intro he
                exact absurd (Except.error.inj he) (by decide)
            | false =>
                rw [if_neg (by simp)]
                intro he
                exact Except.noConfusion he
          · intro hn
            exact absurd (show "deshell_render" ∈ TOOLS.map ToolDescriptor.name by simp [TOOLS]) hn
        · rw [if_neg h4]
          by_cases h5 : name = "deshell_raw"
          · subst h5
            rw [if_pos rfl]
            constructor
            · cases hb : strFalsy (getArg args "url") with
              | true =>
                  rw [if_pos rfl]
                  intro he
                  exact absurd (Except.error.inj he) (by decide)
              | false =>
                  rw [if_neg (by simp)]
                  intro he
                  exact Except.noConfusion he
            · intro hn
              exact absurd (show "deshell_raw" ∈ TOOLS.map ToolDescriptor.name by simp [TOOLS]) hn
          · rw [if_neg h5]
            by_cases h6 : name = "deshell_nocache"
            · subst h6
              rw [if_pos rfl]
              constructor
              · cases hb : strFalsy (getArg args "url") with
                | true =>
                    rw [if_pos rfl]
                    intro he
                    exact absurd (Except.error.inj he) (by decide)
                | false =>
                    rw [if_neg (by simp)]
                    intro he
                    exact Except.noConfusion he
              · intro hn
                exact absurd (show "deshell_nocache" ∈ TOOLS.map ToolDescriptor.name by simp [TOOLS]) hn
            · rw [if_neg h6]
              simp [TOOLS, h1, h2, h3, h4, h5, h6]

/-- C4 witness: with a configured credential, the name "deshell_rm" is
answered with the unknown-tool error, and indeed is not in the registry. -/
theorem c4_registry_matches_invoker_witness :
    callToolReq ⟨"dk", "https://proxy.deshell.ai", "1.0.0"⟩ "deshell_rm" [] =
        .error ("Unknown tool: " ++ "deshell_rm") ↔
      "deshell_rm" ∉ TOOLS.map ToolDescriptor.name :=
  c4_registry_matches_invoker ⟨"dk", "https://proxy.deshell.ai", "1.0.0"⟩
    (by decide) "deshell_rm" []

/-- C5: with a configured credential, the computed request URL and header
set for each tool: raw concatenation base/url for scrape, the
percent-encoded query with an extra Accept header for search, base slash
variant slash url for the four variants, and the API key header on every
issued request. -/
theorem c5_request_shape (cfg : Config) (h : cfg.apiKey ≠ "") :
    (∀ (args : List (String × String)) (u : String),
        getArg args "url" = some u → u ≠ "" →
        callToolReq cfg "deshell_scrape" args =
          .ok ⟨cfg.proxyBase ++ "/" ++ u, [("X-DeShell-Key", cfg.apiKey)]⟩)
  ∧ (∀ (args : List (String × String)) (q : String),
        getArg args "query" = some q → q ≠ "" →
        callToolReq cfg "deshell_search" args =
          .ok ⟨cfg.proxyBase ++ "/search?q=" ++ encodeURIComponent q,
               [("X-DeShell-Key", cfg.apiKey), ("Accept", "text/markdown")]⟩)
  ∧ (∀ v : String, v ∈ (["screenshot", "render", "raw", "nocache"] : List String) →
      ∀ (args : List (String × String)) (u : String),
        getArg args "url" = some u → u ≠ "" →
        callToolReq cfg ("deshell_" ++ v) args =
          .ok ⟨cfg.proxyBase ++ "/" ++ v ++ "/" ++ u, [("X-DeShell-Key", cfg.apiKey)]⟩)
  ∧ (∀ (name : String) (args : List (String × String)) (req : Request),
        callToolReq cfg name args = .ok req →
        ("X-DeShell-Key", cfg.apiKey) ∈ req.headers) := by
  refine ⟨?_, ?_, ?_, ?_⟩
  · intro args u hu hne
    unfold callToolReq
    rw [if_neg h, if_pos rfl, hu]
    rw [if_neg (by simp [strFalsy, hne])]
    rfl
  · intro args q hq hne
    unfold callToolReq
    rw [if_neg h]
    rw [if_neg (by decide : ¬("deshell_search" = "deshell_scrape")), if_pos rfl, hq]
    rw [if_neg (by simp [strFalsy, hne])]
    rfl
  · intro v hv args u hu hne
    simp only [List.mem_cons, List.not_mem_nil, or_false] at hv
    rcases hv with rfl | rfl | rfl | rfl
    · have hn : ("deshell_" ++ "screenshot" : String) = "deshell_screenshot" := rfl
      have hrw : cfg.proxyBase ++ "/" ++ "screenshot" ++ "/" =
          cfg.proxyBase ++ "/screenshot/" := by
        simp [String.append_assoc]
      rw [hn, hrw]
      unfold callToolReq
      rw [if_neg h]
      rw [if_neg (by decide : ¬("deshell_screenshot" = "deshell_scrape"))]
      rw [if_neg (by decide : ¬("deshell_screenshot" = "deshell_search"))]
      rw [if_pos rfl, hu]
      rw [if_neg (by simp [strFalsy, hne])]
      rfl
    · have hn : ("deshell_" ++ "render" : String) = "deshell_render" := rfl
      have hrw : cfg.proxyBase ++ "/" ++ "render" ++ "/" =
          cfg.proxyBase ++ "/render/" := by
        simp [String.append_assoc]
      rw [hn, hrw]
      unfold callToolReq
      rw [if_neg h]
      rw [if_neg (by decide : ¬("deshell_render" = "deshell_scrape"))]
      rw [if_neg (by decide : ¬("deshell_render" = "deshell_search"))]
      rw [if_neg (by decide : ¬("deshell_render" = "deshell_screenshot"))]
      rw [if_pos rfl, hu]
      rw [if_neg (by simp [strFalsy, hne])]
      rfl
    · have hn : ("deshell_" ++ "raw" : String) = "deshell_raw" := rfl
      have hrw : cfg.proxyBase ++ "/" ++ "raw" ++ "/" =
          cfg.proxyBase ++ "/raw/" := by
        simp [String.append_assoc]
      rw [hn, hrw]
      unfold callToolReq
      rw [if_neg h]
      rw [if_neg (by decide : ¬("deshell_raw" = "deshell_scrape"))]
      rw [if_neg (by decide : ¬("deshell_raw" = "deshell_search"))]
      rw [if_neg (by decide : ¬("deshell_raw" = "deshell_screenshot"))]
      rw [if_neg (by decide : ¬("deshell_raw" = "deshell_render"))]
      rw [if_pos rfl, hu]
      rw [if_neg (by simp [strFalsy, hne])]
      rfl
    · have hn : ("deshell_" ++ "nocache" : String) = "deshell_nocache" := rfl
      have hrw : cfg.proxyBase ++ "/" ++ "nocache" ++ "/" =
          cfg.proxyBase ++ "/nocache/" := by
        simp [String.append_assoc]
      rw [hn, hrw]
      unfold callToolReq
      rw [if_neg h]
      rw [if_neg (by decide : ¬("deshell_nocache" = "deshell_scrape"))]
      rw [if_neg (by decide : ¬("deshell_nocache" = "deshell_search"))]
      rw [if_neg (by decide : ¬("deshell_nocache" = "deshell_screenshot"))]
      rw [if_neg (by decide : ¬("deshell_nocache" = "deshell_render"))]
      rw [if_neg (by decide : ¬("deshell_nocache" = "deshell_raw"))]
      rw [if_pos rfl, hu]
      rw [if_neg (by simp [strFalsy, hne])]
      rfl
  · intro name args req hreq
    unfold callToolReq at hreq
    rw [if_neg h] at hreq
    split_ifs at hreq <;>
      first
        | exact Except.noConfusion hreq
        | (injection hreq with h2; subst h2; simp)

/-- C5 witness: a search call with a space in the query, showing the
percent-encoded URL, the Accept header and the key header. -/
theorem c5_request_shape_witness :
    callToolReq ⟨"dk", "https://proxy.deshell.ai", "1.0.0"⟩ "deshell_search"
        [("query", "a b")] =
      .ok ⟨"https://proxy.deshell.ai" ++ "/search?q=" ++ encodeURIComponent "a b",
           [("X-DeShell-Key", "dk"), ("Accept", "text/markdown")]⟩ :=
  (c5_request_shape ⟨"dk", "https://proxy.deshell.ai", "1.0.0"⟩ (by decide)).2.1
    [("query", "a b")] "a b" rfl (by decide)

/-- Shared helper: for every registered tool, when the JS truthiness test
on the tool's single required argument fails (the field is absent or the
empty string), the invoker throws the validation error for that field. -/
theorem callTool_required_error (cfg : Config) (h : cfg.apiKey ≠ "")
    (t : ToolDescriptor) (ht : t ∈ TOOLS) (f : String)
    (hf : t.inputSchema.required = [f]) (args : List (String × String))
    (hfal : strFalsy (getArg args f) = true) :
    callToolReq cfg t.name args = .error (f ++ " is required") := by
  simp only [TOOLS, List.mem_cons, List.not_mem_nil, or_false] at ht
  rcases ht with rfl | rfl | rfl | rfl | rfl | rfl
  · obtain rfl : "url" = f := by simpa using hf
    simp [callToolReq, h, hfal]
  · obtain rfl : "query" = f := by simpa using hf
    simp [callToolReq, h, hfal]
  · obtain rfl : "url" = f := by simpa using hf
    simp [callToolReq, h, hfal]
  · obtain rfl : "url" = f := by simpa using hf
    simp [callToolReq, h, hfal]
  · obtain rfl : "url" = f := by simpa using hf
    simp [callToolReq, h, hfal]
  · obtain rfl : "url" = f := by simpa using hf
    simp [callToolReq, h, hfal]

/-- C6: with a configured credential and a registered tool, when the
tool's required field is absent from the arguments the invoker throws
the validation error naming the field before any HTTP request is made
(its result is that error, not a request), and a tools/call request
carrying such arguments is answered by exactly one error response with
code -32603 whose message contains "required". -/
theorem c6_missing_required_field (cfg : Config) (h : cfg.apiKey ≠ "")
    (net : Request → Except String String) (version : String)
    (t : ToolDescriptor) (ht : t ∈ TOOLS) (f : String)
    (hf : t.inputSchema.required = [f]) (args : List (String × String))
    (hmiss : getArg args f = none) (id : JsonId) :
    callToolReq cfg t.name args = .error (f ++ " is required")
  ∧ dispatch version (execTool cfg net)
      ⟨some id, "tools/call", some ⟨t.name, some args⟩⟩ =
      [Response.fail (some id) (-32603) (f ++ " is required")]
  ∧ ∃ p s : String, f ++ " is required" = p ++ "required" ++ s := by
  have hcall := callTool_required_error cfg h t ht f hf args (by rw [hmiss]; rfl)
  refine ⟨hcall, ?_, ⟨f ++ " is ", "", ?_⟩⟩
  · simp [dispatch, toolOutcome, execTool, hcall, Except.bind]
  · rw [String.append_empty, String.append_assoc]
    rfl

/-- C6 witness: a tools/call for deshell_scrape with an empty arguments
object, against a network that would answer any request. -/
theorem c6_missing_required_field_witness :
    callToolReq ⟨"dk", "https://proxy.deshell.ai", "1.0.0"⟩ "deshell_scrape" [] =
        .error ("url" ++ " is required")
  ∧ dispatch "1.0.0"
      (execTool ⟨"dk", "https://proxy.deshell.ai", "1.0.0"⟩ (fun _ => Except.ok "body"))
      ⟨some (JsonId.num 5), "tools/call", some ⟨"deshell_scrape", some []⟩⟩ =
      [Response.fail (some (JsonId.num 5)) (-32603) ("url" ++ " is required")]
  ∧ ∃ p s : String, "url" ++ " is required" = p ++ "required" ++ s := by
  have h6 := c6_missing_required_field ⟨"dk", "https://proxy.deshell.ai", "1.0.0"⟩
    (by decide) (fun _ => Except.ok "body") "1.0.0"
    { name := "deshell_scrape",
      description := "Fetch a URL and return its content as clean Markdown. Handles JavaScript-rendered pages, PDFs, and automatic content extraction.",
      inputSchema :=
        { type := "object",
          properties := [("url", { type := "string", description := "The URL to fetch and convert to Markdown" })],
          required := ["url"] } }
    (by simp [TOOLS]) "url" rfl [] rfl (JsonId.num 5)
  exact h6

/-- C10: with a configured credential and a registered tool, an argument
object that does carry the tool's required field but with the empty
string as its value is rejected with the same validation error as an
absent field (the check tests JS truthiness, not presence), so no HTTP
request is issued. -/
theorem c10_empty_required_field (cfg : Config) (h : cfg.apiKey ≠ "")
    (t : ToolDescriptor) (ht : t ∈ TOOLS) (f : String)
    (hf : t.inputSchema.required = [f]) (args : List (String × String))
    (hempty : getArg args f = some "") :
    callToolReq cfg t.name args = .error (f ++ " is required")
  ∧ ∀ req : Request, callToolReq cfg t.name args ≠ .ok req := by
  have hcall := callTool_required_error cfg h t ht f hf args (by rw [hempty]; rfl)
  refine ⟨hcall, fun req hreq => ?_⟩
  rw [hcall] at hreq
  exact Except.noConfusion hreq

/-- C10 witness: deshell_search called with the query field present but
equal to the empty string. -/
theorem c10_empty_required_field_witness :
    callToolReq ⟨"dk", "https://proxy.deshell.ai", "1.0.0"⟩ "deshell_search"
        [("query", "")] =
      .error ("query" ++ " is required")
  ∧ ∀ req : Request,
      callToolReq ⟨"dk", "https://proxy.deshell.ai", "1.0.0"⟩ "deshell_search"
        [("query", "")] ≠ .ok req := by
  have h10 := c10_empty_required_field ⟨"dk", "https://proxy.deshell.ai", "1.0.0"⟩
    (by decide)
    { name := "deshell_search",
      description := "Search the web and return results as Markdown. Includes titles, URLs, and snippet text for the top results.",
      inputSchema :=
        { type := "object",
          properties := [("query", { type := "string", description := "The search query" })],
          required := ["query"] } }
    (by simp [TOOLS]) "query" rfl [("query", "")] rfl
  exact h10

/-- C7: the redirect behaviour of the get client. A response with status
301 or 302 makes the client re-issue the same GET with the same headers
to the Location value, and the call resolves exactly as from there; a
response with any other status (303, 307, 308, errors, ...) resolves the
call with exactly the accumulated body; and the recursion has no depth
bound: for every n, a chain of n successive redirects is followed to its
end. -/
theorem c7_redirect_following (net : Request → HttpResp) :
    (∀ (r : Request) (b : String),
        ((net r).status = 301 ∨ (net r).status = 302) →
        (Resolves net r b ↔ Resolves net ⟨(net r).location, r.headers⟩ b))
  ∧ (∀ (r : Request) (b : String),
        ¬((net r).status = 301 ∨ (net r).status = 302) →
        (Resolves net r b ↔ b = (net r).body))
  ∧ (∀ (n : Nat) (headers : List (String × String)),
        Resolves (chainNet n) ⟨"", headers⟩ "end") := by
  refine ⟨?_, ?_, ?_⟩
  · intro r b hst
    constructor
    · intro hres
      cases hres with
      | done _ hn => exact absurd hst hn
      | redirect _ _ _ hrest => exact hrest
    · intro hres
      exact Resolves.redirect r b hst hres
  · intro r b hst
    constructor
    · intro hres
      cases hres with
      | done _ _ => rfl
      | redirect _ _ hst2 _ => exact absurd hst2 hst
    · intro hb
      subst hb
      exact Resolves.done r hst
  · intro n headers
    have key : ∀ (k : Nat) (url : String), url.length + k = n →
        Resolves (chainNet n) ⟨url, headers⟩ "end" := by
      intro k
      induction k with
      | zero =>
          intro url hlen
          rw [Nat.add_zero] at hlen
          have hge : ¬ url.length < n := by simp [hlen]
          have hnet : chainNet n ⟨url, headers⟩ = ⟨200, "", "end"⟩ := by
            simp [chainNet, hge]
          have hns : ¬(((chainNet n) ⟨url, headers⟩).status = 301 ∨
              ((chainNet n) ⟨url, headers⟩).status = 302) := by
            rw [hnet]; simp
          have := @Resolves.done (chainNet n) ⟨url, headers⟩ hns
          rw [hnet] at this
          exact this
      | succ k ih =>
          intro url hlen
          have hlt : url.length < n := by omega
          have hnet : chainNet n ⟨url, headers⟩ = ⟨301, url.push 'a', ""⟩ := by
            simp [chainNet, hlt]
          have hst : ((chainNet n) ⟨url, headers⟩).status = 301 ∨
              ((chainNet n) ⟨url, headers⟩).status = 302 := by
            rw [hnet]; simp
          have hrest : Resolves (chainNet n) ⟨(url.push 'a'), headers⟩ "end" := by
            apply ih
            rw [String.length_push]
            omega
          have hrest2 : Resolves (chainNet n)
              ⟨((chainNet n) ⟨url, headers⟩).location, headers⟩ "end" := by
            rw [hnet]
            exact hrest
          exact Resolves.redirect ⟨url, headers⟩ "end" hst hrest2
    exact key n "" (by simp)

/-- C7 witness: against a network that always answers 200 with body "B",
the client resolves any request with "B"; and a two-step redirect chain
is followed to its end. -/
theorem c7_redirect_following_witness :
    Resolves (fun _ => ⟨200, "", "B"⟩) ⟨"u", []⟩ "B"
  ∧ Resolves (chainNet 2) ⟨"", []⟩ "end" :=
  ⟨((c7_redirect_following (fun _ => ⟨200, "", "B"⟩)).2.1 ⟨"u", []⟩ "B"
      (by decide)).mpr rfl,
   (c7_redirect_following (chainNet 2)).2.2 2 []⟩

end DeshellMCP
